import Mathlib

/-!
Verification of the disk-health telemetry and benchmark engines.

The Python modules `disk_health/smart.py` and `disk_health/benchmark.py` are
shallowly embedded: Python values flowing through the JSON payload become the
inductive type `PyVal`, Python runtime errors (`TypeError`, `AttributeError`,
`KeyError`) become an explicit `Except PyErr` result, floats are modelled as
rationals, and each source function is translated line by line.
-/

set_option autoImplicit false

namespace DiskHealth

/-- A Python value as it can appear in the decoded smartctl JSON payload:
`None`, booleans, integers, strings, lists and string-keyed dicts
(dicts keep insertion order, as Python dicts do). -/
inductive PyVal where
  | null
  | bool (b : Bool)
  | int (n : Int)
  | str (s : String)
  | list (xs : List PyVal)
  | dict (kvs : List (String × PyVal))

/-- The Python runtime errors the embedded code can raise. -/
inductive PyErr where
  | typeError
  | attributeError
  | keyError
  deriving DecidableEq, Repr

/-- Python truthiness (`bool(v)`) for the modelled values: `None`, `False`,
`0`, `""`, `[]` and `{}` are falsy, everything else is truthy. -/
def PyVal.truthy : PyVal → Bool
  | .null => false
  | .bool b => b
  | .int n => n != 0
  | .str s => s != ""
  | .list xs => !xs.isEmpty
  | .dict kvs => !kvs.isEmpty

/-- `True` exactly for dict values (the "expected tree shape"). -/
def PyVal.isDict : PyVal → Bool
  | .dict _ => true
  | _ => false

/-- Python `s.lower()` (ASCII case mapping, character by character). -/
def strLower (s : String) : String := String.mk (s.toList.map Char.toLower)

/-- Python `s.upper()` (ASCII case mapping, character by character). -/
def strUpper (s : String) : String := String.mk (s.toList.map Char.toUpper)

/-- `True` when `needle` occurs as a contiguous run inside `hay`. -/
def listInfixB (needle : List Char) : List Char → Bool
  | [] => needle.isEmpty
  | c :: rest => needle.isPrefixOf (c :: rest) || listInfixB needle rest

/-- Python substring test `needle in hay` on strings. -/
def pyIn (needle hay : String) : Bool :=
  listInfixB needle.toList hay.toList

/-- First binding of key `k` in an insertion-ordered dict. -/
def dictGet (kvs : List (String × PyVal)) (k : String) : Option PyVal :=
  (kvs.find? (fun p => p.1 == k)).map (·.2)

/-- Python `v == k` where `k` is a string: only a string with the same
characters compares equal. -/
def PyVal.eqStr (v : PyVal) (k : String) : Bool :=
  match v with
  | .str s => s == k
  | _ => false

/-- Python membership `k in v` for a string `k`: key lookup on dicts,
substring test on strings, element equality on lists, `TypeError` on the
remaining types. -/
def pyContains (v : PyVal) (k : String) : Except PyErr Bool :=
  match v with
  | .dict kvs => .ok (kvs.any (fun p => p.1 == k))
  | .str s => .ok (pyIn k s)
  | .list xs => .ok (xs.any (fun x => x.eqStr k))
  | _ => .error .typeError

/-- Python `v[k]` for a string key `k`: only dicts support string
subscripts (`KeyError` when absent); every other type raises `TypeError`. -/
def pyGetItem (v : PyVal) (k : String) : Except PyErr PyVal :=
  match v with
  | .dict kvs =>
    match dictGet kvs k with
    | some x => .ok x
    | none => .error .keyError
  | _ => .error .typeError

/-- Python method call `v.get(k, default)`: only dicts have a `get`
attribute, so any other receiver raises `AttributeError`. -/
def pyGet (v : PyVal) (k : String) (default : PyVal) : Except PyErr PyVal :=
  match v with
  | .dict kvs => .ok ((dictGet kvs k).getD default)
  | _ => .error .attributeError

/-- Python iteration `for x in v`: lists yield their elements, strings their
characters (as one-character strings), dicts their keys; other types raise
`TypeError`. -/
def pyIter (v : PyVal) : Except PyErr (List PyVal) :=
  match v with
  | .list xs => .ok xs
  | .str s => .ok (s.toList.map (fun c => .str (String.mk [c])))
  | .dict kvs => .ok (kvs.map (fun p => .str p.1))
  | _ => .error .typeError

/-- `DiskType` from `dh_types.py`. -/
inductive DiskType where
  | NVME
  | SATA_ATA
  | UNKNOWN
  deriving DecidableEq, Repr

/-- `SmartAttribute` from `dh_types.py`; every field holds whatever Python
value the parser put there. -/
structure SmartAttribute where
  id : PyVal
  name : PyVal
  value : PyVal
  worst : PyVal
  thresh : PyVal
  raw : PyVal

/-- The `SmartPayload` dict handed to `synthesize_report`: the value under
`"json"` (absent or `None` both become `none`) and the value under `"raw"`
(`smartctl` stdout, a string when present). -/
structure SmartPayload where
  json : Option PyVal
  raw : Option String

/-- `SmartReport` from `dh_types.py`. -/
structure SmartReport where
  device : String
  health : String
  disk_type : DiskType
  attributes : List SmartAttribute
  raw : Option String
  json_data : Option PyVal

/-- Truthiness of the optional `json_data` (`if json_data:`): `None` and
falsy values both fail the test. -/
def optTruthy : Option PyVal → Bool
  | none => false
  | some v => v.truthy

/-- `_detect_disk_type` from `smart.py`. -/
def _detect_disk_type (device : String) (json_data : Option PyVal) :
    Except PyErr DiskType :=
  if pyIn "nvme" (strLower device) then .ok .NVME
  else
    match json_data with
    | some v =>
      if v.truthy then do
        if (← pyContains v "nvme_smart_health_information_log") then
          pure .NVME
        else if (← pyContains v "ata_smart_attributes") then
          pure .SATA_ATA
        else
          pure .UNKNOWN
      else .ok .UNKNOWN
    | none => .ok .UNKNOWN

/-- Body of the list comprehension in `_parse_ata_attributes`: build one
`SmartAttribute` from one table row, reading each field with
`row.get(key, "")`. -/
def ataRow (row : PyVal) : Except PyErr SmartAttribute := do
  let i ← pyGet row "id" (.str "")
  let n ← pyGet row "name" (.str "")
  let v ← pyGet row "value" (.str "")
  let w ← pyGet row "worst" (.str "")
  let t ← pyGet row "thresh" (.str "")
  let r ← pyGet row "raw" (.str "")
  pure (SmartAttribute.mk i n v w t r)

/-- The list comprehension of `_parse_ata_attributes`: build the attributes
row by row, propagating the first error. -/
def mapAtaRows : List PyVal → Except PyErr (List SmartAttribute)
  | [] => .ok []
  | row :: rest => do
    let a ← ataRow row
    let l ← mapAtaRows rest
    pure (a :: l)

/-- `_parse_ata_attributes` from `smart.py`: iterate the table and map each
row through `ataRow`. -/
def _parse_ata_attributes (ata_table : PyVal) : Except PyErr (List SmartAttribute) := do
  let rows ← pyIter ata_table
  mapAtaRows rows

/-- `_parse_nvme_attributes` from `smart.py`: `nvme_log.items()` flattened,
one attribute per key, sentinel id `"-"`, empty `worst`/`thresh`,
`raw` = `value`. -/
def _parse_nvme_attributes (nvme_log : PyVal) : Except PyErr (List SmartAttribute) :=
  match nvme_log with
  | .dict kvs =>
    .ok (kvs.map (fun p => SmartAttribute.mk (.str "-") (.str p.1) p.2 (.str "") (.str "") p.2))
  | _ => .error .attributeError

/-- `_determine_health_from_json` from `smart.py`. -/
def _determine_health_from_json (json_data : PyVal) : Except PyErr String := do
  let smart_status ← pyGet json_data "smart_status" .null
  if smart_status.truthy then do
    if (← pyContains smart_status "passed") then do
      let v ← pyGetItem smart_status "passed"
      pure (if v.truthy then "PASSED" else "FAILED")
    else
      pure "UNKNOWN"
  else
    pure "UNKNOWN"

/-- `_determine_health_from_raw` from `smart.py`. -/
def _determine_health_from_raw : Option String → String
  | none => "UNKNOWN"
  | some s =>
    if s = "" then "UNKNOWN"
    else if pyIn "PASSED" (strUpper s) || pyIn "OK" (strUpper s) then "PASSED"
    else if pyIn "FAILED" (strUpper s) then "FAILED"
    else "UNKNOWN"

/-- `synthesize_report` from `smart.py`, with Python's exception behaviour
made explicit in the `Except` result. -/
def synthesize_report (device : String) (smart_payload : SmartPayload) :
    Except PyErr SmartReport := do
  let json_data := smart_payload.json
  let raw_data := smart_payload.raw
  let disk_type ← _detect_disk_type device json_data
  let health ←
    if optTruthy json_data then
      _determine_health_from_json (json_data.getD .null)
    else
      pure (_determine_health_from_raw raw_data)
  let attributes ←
    if optTruthy json_data then
      if disk_type = DiskType.NVME then do
        let nvme_log ← pyGet (json_data.getD .null) "nvme_smart_health_information_log" (.dict [])
        _parse_nvme_attributes nvme_log
      else if disk_type = DiskType.SATA_ATA then do
        let ata_obj ← pyGet (json_data.getD .null) "ata_smart_attributes" (.dict [])
        let ata_table ← pyGet ata_obj "table" (.list [])
        _parse_ata_attributes ata_table
      else
        pure []
    else
      pure []
  pure (SmartReport.mk device health disk_type attributes raw_data json_data)

/-- `True` when the result is `ok`, i.e. the Python call returned without
raising. -/
def isOkB {α : Type} : Except PyErr α → Bool
  | .ok _ => true
  | .error _ => false

/-- The health verdict of a synthesis result, with a marker for a raised
exception (used to compare verdicts of two runs). -/
def healthStr : Except PyErr SmartReport → String
  | .ok r => r.health
  | .error _ => "<exception>"

/-- Expected shape of the `smart_status` value: when present and truthy it
must be a dict (that is all `_determine_health_from_json` probes with `in`
and subscripts). -/
def statusShapeOk (kvs : List (String × PyVal)) : Bool :=
  match dictGet kvs "smart_status" with
  | none => true
  | some s => !s.truthy || s.isDict

/-- Expected shape of the NVMe health-information block: when present it
must be a dict (it gets `.items()`-iterated). -/
def nvmeShapeOk (kvs : List (String × PyVal)) : Bool :=
  match dictGet kvs "nvme_smart_health_information_log" with
  | none => true
  | some l => l.isDict

/-- Expected shape of the `table` value inside `ata_smart_attributes`: when
present it must be a list of dicts (each row gets `.get` called on it). -/
def tableShapeOk (akvs : List (String × PyVal)) : Bool :=
  match dictGet akvs "table" with
  | none => true
  | some t =>
    match t with
    | .list xs => xs.all PyVal.isDict
    | _ => false

/-- Expected shape of the `ata_smart_attributes` value: when present it must
be a dict (it gets `.get("table", [])` called on it) with a well-shaped
table. -/
def ataShapeOk (kvs : List (String × PyVal)) : Bool :=
  match dictGet kvs "ata_smart_attributes" with
  | none => true
  | some a =>
    match a with
    | .dict akvs => tableShapeOk akvs
    | _ => false

/-- The expected tree shape of the structured document, read off the source:
whenever the document is truthy it must be a dict whose `smart_status`,
NVMe-log and ATA-attribute values (when present) have the shapes the code
subscripts, probes with `in`, calls `.get` on, or iterates. -/
def wfDoc : Option PyVal → Bool
  | none => true
  | some v =>
    if v.truthy then
      match v with
      | .dict kvs => statusShapeOk kvs && nvmeShapeOk kvs && ataShapeOk kvs
      | _ => false
    else true

/-- `BenchmarkResults` from `dh_types.py`, floats modelled as rationals. -/
structure BenchmarkResults where
  read_speeds : List ℚ
  access_times : List ℚ
  positions : List ℚ
  avg_read_speed : ℚ
  min_read_speed : ℚ
  max_read_speed : ℚ
  avg_access_time : ℚ
  min_access_time : ℚ
  max_access_time : ℚ
  deriving DecidableEq

/-- `np.mean` on a non-empty list: sum divided by length. -/
def listMean (xs : List ℚ) : ℚ := xs.sum / (xs.length : ℚ)

/-- `np.min` on a non-empty list (first element folded with `min`). -/
def listMin : List ℚ → ℚ
  | [] => 0
  | x :: xs => xs.foldl min x

/-- `np.max` on a non-empty list (first element folded with `max`). -/
def listMax : List ℚ → ℚ
  | [] => 0
  | x :: xs => xs.foldl max x

/-- `_calculate_read_speed` from `benchmark.py`. -/
def _calculate_read_speed (data_size : ℤ) (elapsed_time : ℚ) : ℚ :=
  if elapsed_time ≤ 0 then 0
  else ((data_size : ℚ) / (1024 * 1024)) / elapsed_time

/-- `_calculate_position_percentage` from `benchmark.py`. -/
def _calculate_position_percentage (position : ℤ) (total_size : ℤ) : ℚ :=
  if total_size ≤ 0 then 0
  else ((position : ℚ) / (total_size : ℚ)) * 100

/-- `compute_benchmark_stats` from `benchmark.py`: early all-zero return when
`read_speeds` is falsy, and per-field fallback to `0.0` for an empty
`access_times`. -/
def compute_benchmark_stats (read_speeds access_times positions : List ℚ) :
    BenchmarkResults :=
  if read_speeds.isEmpty then
    BenchmarkResults.mk [] [] [] 0 0 0 0 0 0
  else
    BenchmarkResults.mk read_speeds access_times positions
      (listMean read_speeds) (listMin read_speeds) (listMax read_speeds)
      (if access_times.isEmpty then 0 else listMean access_times)
      (if access_times.isEmpty then 0 else listMin access_times)
      (if access_times.isEmpty then 0 else listMax access_times)

/-! ### Reduction lemmas for the `Except` monad -/

@[simp]
theorem exbind_ok {α β : Type} (a : α) (f : α → Except PyErr β) :
    (Except.ok a >>= f : Except PyErr β) = f a := rfl

@[simp]
theorem exbind_error {α β : Type} (e : PyErr) (f : α → Except PyErr β) :
    ((Except.error e : Except PyErr α) >>= f) = Except.error e := rfl

@[simp]
theorem expure {α : Type} (a : α) : (pure a : Except PyErr α) = Except.ok a := rfl

theorem map_health_bind_pure (A : Except PyErr (List SmartAttribute))
    (device hl : String) (dt : DiskType) (sd : Option PyVal) (r1 r2 : Option String) :
    (A >>= fun attrs => pure (SmartReport.mk device hl dt attrs r1 sd)).map SmartReport.health =
    (A >>= fun attrs => pure (SmartReport.mk device hl dt attrs r2 sd)).map SmartReport.health := by
  cases A <;> rfl

/-! ### C3 — device-path evidence wins family detection -/

/-- C3: for every deviceId whose lowercase form contains `"nvme"` and every
structured document (including `none`), `_detect_disk_type` returns `NVME`;
the document content can never override device-path evidence. -/
theorem family_detection_nvme_device (device : String) (json_data : Option PyVal)
    (h : pyIn "nvme" (strLower device) = true) :
    _detect_disk_type device json_data = .ok DiskType.NVME := by
  unfold _detect_disk_type
  simp [h]

/-- Witness for C3: an uppercase `NVMe` device path beats both an
ATA-looking document and an absent document. -/
theorem family_detection_nvme_device_witness :
    pyIn "nvme" (strLower "/dev/NVMe0n1") = true ∧
    _detect_disk_type "/dev/NVMe0n1"
      (some (.dict [("ata_smart_attributes", .dict [("table", .list [])])])) = .ok DiskType.NVME ∧
    _detect_disk_type "/dev/NVMe0n1" none = .ok DiskType.NVME :=
  ⟨by decide, family_detection_nvme_device _ _ (by decide),
    family_detection_nvme_device _ _ (by decide)⟩

/-! ### C6 — transcript fallback for health -/

/-- C6: with no structured document, health comes from the uppercased
transcript: `PASSED`/`OK` win first, then `FAILED`, otherwise `UNKNOWN`;
an absent or empty transcript gives `UNKNOWN`; a transcript containing both
classes resolves to `PASSED` because that branch is checked first. -/
theorem raw_transcript_health (s : String) :
    _determine_health_from_raw none = "UNKNOWN" ∧
    _determine_health_from_raw (some "") = "UNKNOWN" ∧
    _determine_health_from_raw (some s) =
      (if pyIn "PASSED" (strUpper s) || pyIn "OK" (strUpper s) then "PASSED"
       else if pyIn "FAILED" (strUpper s) then "FAILED"
       else "UNKNOWN") := by
  refine ⟨rfl, rfl, ?_⟩
  by_cases hs : s = ""
  · subst hs; decide
  · simp [_determine_health_from_raw, hs]

/-! ### C7 — position percentage is not clamped -/

/-- C7: `_calculate_position_percentage` is `position / totalSize * 100` for
positive totals and `0` for non-positive totals; it is not clamped, so an
offset equal to the total yields exactly `100` and `1500/1000` yields
`150`. -/
theorem position_percent_spec (position total : ℤ) :
    (0 < total →
      _calculate_position_percentage position total = (position : ℚ) / (total : ℚ) * 100) ∧
    (total ≤ 0 → _calculate_position_percentage position total = 0) ∧
    (0 < total → _calculate_position_percentage total total = 100) ∧
    _calculate_position_percentage 1500 1000 = 150 := by
  refine ⟨fun h => ?_, fun h => ?_, fun h => ?_, ?_⟩
  · simp [_calculate_position_percentage, not_le.mpr h]
  · simp [_calculate_position_percentage, h]
  · have ht : ((total : ℚ)) ≠ 0 := by exact_mod_cast h.ne'
    simp [_calculate_position_percentage, not_le.mpr h]
    field_simp
  · norm_num [_calculate_position_percentage]

/-- Witness for C7 at the spec's own data points. -/
theorem position_percent_spec_witness :
    _calculate_position_percentage 500 1000 = 50 ∧
    _calculate_position_percentage 100 0 = 0 ∧
    _calculate_position_percentage 1000 1000 = 100 ∧
    _calculate_position_percentage 1500 1000 = 150 := by
  refine ⟨?_, ?_, ?_, ?_⟩
  · rw [(position_percent_spec 500 1000).1 (by norm_num)]; norm_num
  · exact (position_percent_spec 100 0).2.1 (by norm_num)
  · exact (position_percent_spec 1000 1000).2.2.1 (by norm_num)
  · exact (position_percent_spec 0 0).2.2.2

/-! ### C8 — throughput division guard -/

/-- C8: `_calculate_read_speed` returns `0` for zero or negative elapsed
time (no division happens) and `dataSize / (1024*1024) / elapsed` for
positive elapsed time. -/
theorem read_speed_spec (data_size : ℤ) (elapsed : ℚ) :
    (elapsed ≤ 0 → _calculate_read_speed data_size elapsed = 0) ∧
    (0 < elapsed →
      _calculate_read_speed data_size elapsed = (data_size : ℚ) / (1024 * 1024) / elapsed) := by
  constructor
  · intro h; simp [_calculate_read_speed, h]
  · intro h; simp [_calculate_read_speed, not_le.mpr h]

/-- Witness for C8: zero and negative elapsed guard, plus 4 MiB in one
second giving 4 MB/s. -/
theorem read_speed_spec_witness :
    _calculate_read_speed (4 * 1024 * 1024) 0 = 0 ∧
    _calculate_read_speed (4 * 1024 * 1024) (-1) = 0 ∧
    _calculate_read_speed (4 * 1024 * 1024) 1 = 4 := by
  refine ⟨(read_speed_spec _ 0).1 (by norm_num), (read_speed_spec _ (-1)).1 (by norm_num), ?_⟩
  rw [(read_speed_spec (4 * 1024 * 1024) 1).2 (by norm_num)]
  norm_num

/-! ### C5 — zero-value aggregation -/

/-- C5: aggregating three empty series yields the defined zero-value
summary: all six derived scalars exactly `0` and all three sequences
empty. -/
theorem zero_value_aggregation :
    compute_benchmark_stats [] [] [] = BenchmarkResults.mk [] [] [] 0 0 0 0 0 0 := by
  simp [compute_benchmark_stats]

/-! ### C4 — mismatched-length aggregation -/

/-- Counterexample for C4: with an empty speed series and the non-empty
latency series `[1]`, the code returns the all-zero summary — the latency
average is `0`, not the series mean `1`, and the latency sequence is
dropped. -/
theorem mismatched_aggregation_fails :
    (compute_benchmark_stats [] [1] []).avg_access_time ≠ listMean [1] ∧
    (compute_benchmark_stats [] [1] []).access_times ≠ [1] := by
  constructor <;> norm_num [compute_benchmark_stats, listMean]

/-- C4 as amended: when the speed series is non-empty, each avg/min/max is
computed independently over its own series (an empty latency series falls
back to `0`) and the three sequences are kept as given, with no length
alignment and no error; when the speed series is empty, the all-zero
summary is returned regardless of the other series. -/
theorem mismatched_aggregation_amended (rs ats ps : List ℚ) (h : rs ≠ []) :
    compute_benchmark_stats rs ats ps =
      BenchmarkResults.mk rs ats ps (listMean rs) (listMin rs) (listMax rs)
        (if ats.isEmpty then 0 else listMean ats)
        (if ats.isEmpty then 0 else listMin ats)
        (if ats.isEmpty then 0 else listMax ats) ∧
    (∀ ats' ps' : List ℚ,
      compute_benchmark_stats [] ats' ps' = BenchmarkResults.mk [] [] [] 0 0 0 0 0 0) := by
  constructor
  · have he : rs.isEmpty = false := by
      cases rs with
      | nil => exact absurd rfl h
      | cons a l => rfl
    simp [compute_benchmark_stats, he]
  · intro ats' ps'
    simp [compute_benchmark_stats]

/-- Witness for C4 (amended) at the repo's own mismatched-length data. -/
theorem mismatched_aggregation_amended_witness :
    compute_benchmark_stats [100, 95] [1] [0, 50, 100] =
      BenchmarkResults.mk [100, 95] [1] [0, 50, 100] (195 / 2) 95 100 1 1 1 ∧
    compute_benchmark_stats [] [1] [] = BenchmarkResults.mk [] [] [] 0 0 0 0 0 0 := by
  constructor
  · have h := (mismatched_aggregation_amended [100, 95] [1] [0, 50, 100] (by simp)).1
    rw [h]
    norm_num [listMean, listMin, listMax, min_def, max_def]
  · exact (mismatched_aggregation_amended [1] [] [] (by simp)).2 [1] []

/-! ### C10 — empty document behaves as absent -/

/-- C10: for a deviceId without `"nvme"`, synthesizing with the empty
key-value tree `{}` behaves exactly like synthesizing with an absent
document: family `UNKNOWN`, no attributes, and health taken from the
transcript fallback. -/
theorem empty_document_treated_as_absent (device : String) (raw : Option String)
    (h : pyIn "nvme" (strLower device) = false) :
    synthesize_report device (SmartPayload.mk (some (.dict [])) raw) =
      .ok (SmartReport.mk device (_determine_health_from_raw raw) .UNKNOWN [] raw
        (some (.dict []))) ∧
    synthesize_report device (SmartPayload.mk none raw) =
      .ok (SmartReport.mk device (_determine_health_from_raw raw) .UNKNOWN [] raw none) := by
  constructor <;> simp [synthesize_report, _detect_disk_type, h, optTruthy, PyVal.truthy]

/-- Witness for C10 on `/dev/sda` with a passing transcript. -/
theorem empty_document_treated_as_absent_witness :
    synthesize_report "/dev/sda" (SmartPayload.mk (some (.dict [])) (some "result: PASSED")) =
      .ok (SmartReport.mk "/dev/sda" "PASSED" .UNKNOWN [] (some "result: PASSED")
        (some (.dict []))) :=
  ((empty_document_treated_as_absent "/dev/sda" (some "result: PASSED") (by decide)).1).trans rfl

/-! ### C2 — document precedence over transcript -/

/-- Counterexample for C2: the empty dict `{}` is a present structured
document, yet the two payloads sharing it but differing in transcript get
different health verdicts — the transcript is consulted. -/
theorem document_precedence_fails :
    healthStr (synthesize_report "/dev/sda"
        (SmartPayload.mk (some (.dict [])) (some "result: PASSED"))) ≠
    healthStr (synthesize_report "/dev/sda"
        (SmartPayload.mk (some (.dict [])) (some "result: FAILED"))) := by
  decide

/-- C2 as amended: whenever the structured document is present and truthy
(non-empty), the health verdict of `synthesize_report` does not depend on
the transcript at all. -/
theorem document_precedence_amended (device : String) (d : PyVal) (h : d.truthy = true)
    (r1 r2 : Option String) :
    (synthesize_report device (SmartPayload.mk (some d) r1)).map SmartReport.health =
    (synthesize_report device (SmartPayload.mk (some d) r2)).map SmartReport.health := by
  unfold synthesize_report
  simp only [optTruthy, h, if_true, Option.getD_some]
  cases hdt : _detect_disk_type device (some d) with
  | error e => simp [hdt]
  | ok dt =>
    simp only [hdt, exbind_ok]
    cases hh : _determine_health_from_json d with
    | error e => simp [hh]
    | ok hl =>
      simp only [hh, exbind_ok]
      cases dt with
      | NVME =>
        simp only [reduceIte]
        cases hg : pyGet d "nvme_smart_health_information_log" (PyVal.dict []) with
        | error e => simp [hg]
        | ok lv =>
          simp only [hg, exbind_ok]
          exact map_health_bind_pure _ device hl _ (some d) r1 r2
      | SATA_ATA =>
        simp only [reduceIte]
        cases hg : pyGet d "ata_smart_attributes" (PyVal.dict []) with
        | error e => simp [hg]
        | ok av =>
          simp only [hg, exbind_ok]
          cases hg2 : pyGet av "table" (PyVal.list []) with
          | error e => simp [hg2]
          | ok tv =>
            simp only [hg2, exbind_ok]
            exact map_health_bind_pure _ device hl _ (some d) r1 r2
      | UNKNOWN => rfl

/-- Witness for C2 (amended): a passing document beats contradicting
transcripts. -/
theorem document_precedence_amended_witness :
    (synthesize_report "/dev/sda"
        (SmartPayload.mk (some (.dict [("smart_status", .dict [("passed", .bool true)])]))
          (some "FAILED"))).map SmartReport.health =
    (synthesize_report "/dev/sda"
        (SmartPayload.mk (some (.dict [("smart_status", .dict [("passed", .bool true)])]))
          (some "PASSED"))).map SmartReport.health :=
  document_precedence_amended "/dev/sda" _ (by decide) (some "FAILED") (some "PASSED")

/-! ### Helper lemmas for totality of the synthesis pipeline -/

theorem pyGet_dict (kvs : List (String × PyVal)) (k : String) (d : PyVal) :
    pyGet (.dict kvs) k d = .ok ((dictGet kvs k).getD d) := rfl

theorem ataRow_dict (kvs : List (String × PyVal)) :
    ataRow (.dict kvs) = .ok (SmartAttribute.mk
      ((dictGet kvs "id").getD (.str "")) ((dictGet kvs "name").getD (.str ""))
      ((dictGet kvs "value").getD (.str "")) ((dictGet kvs "worst").getD (.str ""))
      ((dictGet kvs "thresh").getD (.str "")) ((dictGet kvs "raw").getD (.str ""))) := rfl

theorem dictGet_isSome (kvs : List (String × PyVal)) (k : String)
    (h : kvs.any (fun p => p.1 == k) = true) : ∃ x, dictGet kvs k = some x := by
  have hs : (kvs.find? (fun p => p.1 == k)).isSome := by
    rw [List.find?_isSome]
    obtain ⟨p, hp, hpk⟩ := List.any_eq_true.mp h
    exact ⟨p, hp, hpk⟩
  obtain ⟨q, hq⟩ := Option.isSome_iff_exists.mp hs
  exact ⟨q.2, by simp [dictGet, hq]⟩

theorem detect_dict_ok (device : String) (kvs : List (String × PyVal)) :
    ∃ dt, _detect_disk_type device (some (.dict kvs)) = .ok dt := by
  by_cases hn : pyIn "nvme" (strLower device) = true
  · exact ⟨.NVME, by simp [_detect_disk_type, hn]⟩
  · by_cases ht : (PyVal.dict kvs).truthy = true
    · by_cases h1 : kvs.any (fun p => p.1 == "nvme_smart_health_information_log") = true
      · exact ⟨.NVME, by simp [_detect_disk_type, hn, ht, pyContains, h1]⟩
      · by_cases h2 : kvs.any (fun p => p.1 == "ata_smart_attributes") = true
        · exact ⟨.SATA_ATA, by simp [_detect_disk_type, hn, ht, pyContains, h1, h2]⟩
        · exact ⟨.UNKNOWN, by simp [_detect_disk_type, hn, ht, pyContains, h1, h2]⟩
    · exact ⟨.UNKNOWN, by simp [_detect_disk_type, hn, ht]⟩

theorem health_from_json_ok (kvs : List (String × PyVal))
    (hs : statusShapeOk kvs = true) :
    ∃ hl, _determine_health_from_json (.dict kvs) = .ok hl := by
  cases hg : dictGet kvs "smart_status" with
  | none =>
    exact ⟨"UNKNOWN", by simp [_determine_health_from_json, pyGet_dict, hg, PyVal.truthy]⟩
  | some s =>
    simp only [statusShapeOk, hg] at hs
    by_cases ht : s.truthy = true
    · have hd : s.isDict = true := by simpa [ht] using hs
      rcases s with _ | b | n | st | xs | skvs <;> simp [PyVal.isDict] at hd
      by_cases hb : skvs.any (fun p => p.1 == "passed") = true
      · obtain ⟨x, hx⟩ := dictGet_isSome skvs "passed" hb
        refine ⟨if x.truthy then "PASSED" else "FAILED", ?_⟩
        simp [_determine_health_from_json, pyGet_dict, hg, ht, pyContains, hb, pyGetItem, hx]
      · refine ⟨"UNKNOWN", ?_⟩
        simp [_determine_health_from_json, pyGet_dict, hg, ht, pyContains, hb]
    · refine ⟨"UNKNOWN", ?_⟩
      simp [_determine_health_from_json, pyGet_dict, hg, ht]

theorem parse_nvme_ok (v : PyVal) (h : v.isDict = true) :
    ∃ l, _parse_nvme_attributes v = .ok l := by
  cases v <;> simp [PyVal.isDict] at h
  case dict kvs => exact ⟨_, rfl⟩

theorem mapAtaRows_ok (xs : List PyVal) (h : ∀ x ∈ xs, PyVal.isDict x = true) :
    ∃ l, mapAtaRows xs = .ok l := by
  induction xs with
  | nil => exact ⟨[], rfl⟩
  | cons x xs ih =>
    obtain ⟨l, hl⟩ := ih (fun y hy => h y (List.mem_cons_of_mem x hy))
    have hx := h x (List.mem_cons_self x xs)
    rcases x with _ | b | n | st | ys | kvs <;> simp [PyVal.isDict] at hx
    exact ⟨(SmartAttribute.mk
      ((dictGet kvs "id").getD (.str "")) ((dictGet kvs "name").getD (.str ""))
      ((dictGet kvs "value").getD (.str "")) ((dictGet kvs "worst").getD (.str ""))
      ((dictGet kvs "thresh").getD (.str "")) ((dictGet kvs "raw").getD (.str ""))) :: l,
      by simp [mapAtaRows, ataRow_dict, hl]⟩

theorem parse_ata_ok (t : PyVal)
    (h : (match t with | .list xs => xs.all PyVal.isDict | _ => false) = true) :
    ∃ l, _parse_ata_attributes t = .ok l := by
  rcases t with _ | b | n | st | xs | kvs <;> simp at h
  obtain ⟨l, hl⟩ := mapAtaRows_ok xs h
  exact ⟨l, by simp [_parse_ata_attributes, pyIter, hl]⟩

theorem wf_truthy_dict (v : PyVal) (ht : v.truthy = true) (h : wfDoc (some v) = true) :
    ∃ kvs, v = .dict kvs ∧ statusShapeOk kvs = true ∧ nvmeShapeOk kvs = true ∧
      ataShapeOk kvs = true := by
  rcases v with _ | b | n | st | xs | kvs
  · exact absurd ht (by simp [PyVal.truthy])
  · simp only [wfDoc, ht, eq_self_iff_true, if_true] at h
    exact absurd h (by simp)
  · simp only [wfDoc, ht, eq_self_iff_true, if_true] at h
    exact absurd h (by simp)
  · simp only [wfDoc, ht, eq_self_iff_true, if_true] at h
    exact absurd h (by simp)
  · simp only [wfDoc, ht, eq_self_iff_true, if_true] at h
    exact absurd h (by simp)
  · simp only [wfDoc, ht, eq_self_iff_true, if_true, Bool.and_eq_true] at h
    exact ⟨kvs, rfl, h.1.1, h.1.2, h.2⟩

/-! ### C1 — totality of synthesis -/

/-- Counterexample for C1: a present document whose smart-status value is
the integer `5` (not the expected tree shape) makes `synthesize_report`
raise a `TypeError` (from `"passed" in smart_status`) instead of degrading
to `UNKNOWN`. -/
theorem synthesis_totality_fails :
    isOkB (synthesize_report "/dev/sda"
      (SmartPayload.mk (some (.dict [("smart_status", .int 5)])) none)) = false := by
  decide

/-- C1 as amended: `synthesize_report` returns a report and never raises for
every deviceId and every payload whose structured document is well shaped
(`wfDoc`): absent, falsy, or a dict whose smart-status, NVMe-log and
ATA-attribute sub-values (when present at all) have the tree shapes the
code expects. Missing sub-fields are covered (they default inside `wfDoc`),
but a sub-value of the wrong shape raises instead of degrading. -/
theorem synthesis_totality_amended (device : String) (p : SmartPayload)
    (h : wfDoc p.json = true) :
    isOkB (synthesize_report device p) = true := by
  obtain ⟨json, raw⟩ := p
  cases json with
  | none =>
    by_cases hn : pyIn "nvme" (strLower device) = true <;>
      simp [synthesize_report, _detect_disk_type, hn, optTruthy, isOkB]
  | some v =>
    by_cases ht : v.truthy = true
    · obtain ⟨kvs, rfl, h1, h2, h3⟩ := wf_truthy_dict v ht h
      obtain ⟨dt, hdt⟩ := detect_dict_ok device kvs
      obtain ⟨hl, hhl⟩ := health_from_json_ok kvs h1
      unfold synthesize_report
      simp only [hdt, exbind_ok, optTruthy, ht, if_true, Option.getD_some, hhl]
      cases dt with
      | NVME =>
        simp only [reduceIte, pyGet_dict, exbind_ok]
        have hlog : ((dictGet kvs "nvme_smart_health_information_log").getD
            (.dict [])).isDict = true := by
          cases hg : dictGet kvs "nvme_smart_health_information_log" with
          | none => rfl
          | some l =>
            simp only [nvmeShapeOk, hg] at h2
            simpa using h2
        obtain ⟨al, hal⟩ := parse_nvme_ok _ hlog
        simp [hal, isOkB]
      | SATA_ATA =>
        simp only [reduceIte, pyGet_dict, exbind_ok]
        have hobj : ∃ akvs, (dictGet kvs "ata_smart_attributes").getD (.dict []) =
            .dict akvs ∧ tableShapeOk akvs = true := by
          cases hg : dictGet kvs "ata_smart_attributes" with
          | none => exact ⟨[], rfl, rfl⟩
          | some a =>
            simp only [ataShapeOk, hg] at h3
            rcases a with _ | b | n | st | xs | akvs <;> simp at h3
            exact ⟨akvs, rfl, h3⟩
        obtain ⟨akvs, hak, htab⟩ := hobj
        rw [hak]
        simp only [pyGet_dict, exbind_ok]
        have htbl : ∃ l, _parse_ata_attributes ((dictGet akvs "table").getD
            (.list [])) = .ok l := by
          apply parse_ata_ok
          cases hg2 : dictGet akvs "table" with
          | none => rfl
          | some t =>
            simp only [tableShapeOk, hg2] at htab
            simpa using htab
        obtain ⟨l, hl⟩ := htbl
        simp [hl, isOkB]
      | UNKNOWN => rfl
    · by_cases hn : pyIn "nvme" (strLower device) = true <;>
        simp [synthesize_report, _detect_disk_type, hn, optTruthy, ht, isOkB]

/-- Witness for C1 (amended): a well-shaped document with an empty
smart-status dict (`passed` missing) and an ATA block with no table
synthesizes without raising. -/
theorem synthesis_totality_amended_witness :
    wfDoc (some (.dict [("smart_status", .dict []), ("ata_smart_attributes", .dict [])])) =
      true ∧
    isOkB (synthesize_report "/dev/sda"
      (SmartPayload.mk
        (some (.dict [("smart_status", .dict []), ("ata_smart_attributes", .dict [])]))
        none)) = true :=
  ⟨by decide, synthesis_totality_amended _ _ (by decide)⟩

/-! ### C9 — attribute schema invariants -/

/-- C9: every attribute of an NVMe-family report produced by
`synthesize_report` carries the sentinel id `"-"`, empty `worst` and
`thresh`, and `raw` equal to `value`; the NVMe parser flattens the log one
key per attribute with exactly those fields; and the ATA parser fills all
six fields of each attribute from its source row, defaulting to the empty
string for every missing key and never raising. -/
theorem attribute_schema_invariant (device : String) (p : SmartPayload) (r : SmartReport)
    (hr : synthesize_report device p = .ok r)
    (log : List (String × PyVal)) (rows : List (List (String × PyVal))) :
    (r.disk_type = DiskType.NVME → ∀ a ∈ r.attributes,
      a.id = PyVal.str "-" ∧ a.worst = PyVal.str "" ∧ a.thresh = PyVal.str "" ∧
        a.raw = a.value) ∧
    _parse_nvme_attributes (.dict log) =
      .ok (log.map (fun q =>
        SmartAttribute.mk (.str "-") (.str q.1) q.2 (.str "") (.str "") q.2)) ∧
    _parse_ata_attributes (.list (rows.map PyVal.dict)) =
      .ok (rows.map (fun kvs => SmartAttribute.mk
        ((dictGet kvs "id").getD (.str "")) ((dictGet kvs "name").getD (.str ""))
        ((dictGet kvs "value").getD (.str "")) ((dictGet kvs "worst").getD (.str ""))
        ((dictGet kvs "thresh").getD (.str "")) ((dictGet kvs "raw").getD (.str "")))) := by
  refine ⟨?_, rfl, ?_⟩
  · intro hNV a ha
    simp only [synthesize_report] at hr
    cases hdt : _detect_disk_type device p.json with
    | error e => rw [hdt] at hr; simp at hr
    | ok dt =>
      rw [hdt] at hr
      simp only [exbind_ok] at hr
      by_cases hj : optTruthy p.json = true
      · simp only [hj, eq_self_iff_true, if_true] at hr
        cases hh : _determine_health_from_json (p.json.getD .null) with
        | error e => rw [hh] at hr; simp at hr
        | ok hl =>
          simp only [hh, exbind_ok] at hr
          cases dt with
          | NVME =>
            simp only [reduceIte] at hr
            cases hg : pyGet (p.json.getD .null) "nvme_smart_health_information_log"
                (.dict []) with
            | error e => rw [hg] at hr; simp at hr
            | ok lv =>
              simp only [hg, exbind_ok] at hr
              cases hp : _parse_nvme_attributes lv with
              | error e => rw [hp] at hr; simp at hr
              | ok attrs =>
                simp only [hp, exbind_ok, expure] at hr
                obtain rfl := Except.ok.inj hr
                rcases lv with _ | b | n | st | xs | wk <;>
                  simp [_parse_nvme_attributes] at hp
                subst hp
                have ha' : a ∈ wk.map (fun q =>
                    SmartAttribute.mk (.str "-") (.str q.1) q.2 (.str "") (.str "") q.2) := ha
                obtain ⟨q, hq, rfl⟩ := List.mem_map.mp ha'
                exact ⟨rfl, rfl, rfl, rfl⟩
          | SATA_ATA =>
            simp only [reduceIte] at hr
            cases hg : pyGet (p.json.getD .null) "ata_smart_attributes" (.dict []) with
            | error e => rw [hg] at hr; simp at hr
            | ok av =>
              simp only [hg, exbind_ok] at hr
              cases hg2 : pyGet av "table" (.list []) with
              | error e => rw [hg2] at hr; simp at hr
              | ok tv =>
                simp only [hg2, exbind_ok] at hr
                cases hp : _parse_ata_attributes tv with
                | error e => rw [hp] at hr; simp at hr
                | ok l =>
                  simp only [hp, exbind_ok, expure] at hr
                  obtain rfl := Except.ok.inj hr
                  simp at hNV
          | UNKNOWN =>
            simp only [reduceIte, expure, exbind_ok] at hr
            obtain rfl := Except.ok.inj hr
            simp at ha
      · simp only [Bool.not_eq_true] at hj
        rw [hj] at hr
        simp only [Bool.false_eq_true, if_false, expure, exbind_ok] at hr
        obtain rfl := Except.ok.inj hr
        simp at ha
  · induction rows with
    | nil => rfl
    | cons kvs rest ih =>
      simp only [_parse_ata_attributes, pyIter, exbind_ok, List.map_cons] at ih ⊢
      simp [mapAtaRows, ataRow_dict, ih]

/-- Witness for C9: the NVMe report for a one-key log, plus the ATA parser
on one row with only `id` and one fully-missing row, both with the claimed
field values. -/
theorem attribute_schema_invariant_witness :
    (∀ a ∈ [SmartAttribute.mk (.str "-") (.str "temperature") (.int 33) (.str "")
        (.str "") (.int 33)],
      a.id = PyVal.str "-" ∧ a.worst = PyVal.str "" ∧ a.thresh = PyVal.str "" ∧
        a.raw = a.value) ∧
    _parse_ata_attributes (.list [PyVal.dict [("id", .int 5)], PyVal.dict []]) =
      .ok [SmartAttribute.mk (.int 5) (.str "") (.str "") (.str "") (.str "") (.str ""),
           SmartAttribute.mk (.str "") (.str "") (.str "") (.str "") (.str "") (.str "")] := by
  have h := attribute_schema_invariant "/dev/nvme0"
    (SmartPayload.mk
      (some (.dict [("nvme_smart_health_information_log", .dict [("temperature", .int 33)])]))
      none)
    (SmartReport.mk "/dev/nvme0" "UNKNOWN" .NVME
      [SmartAttribute.mk (.str "-") (.str "temperature") (.int 33) (.str "") (.str "")
        (.int 33)]
      none (some (.dict [("nvme_smart_health_information_log",
        PyVal.dict [("temperature", .int 33)])])))
    rfl [] [[("id", PyVal.int 5)], []]
  exact ⟨fun a ha => h.1 rfl a ha, h.2.2.trans rfl⟩

end DiskHealth
